import Mathlib

/-!
Shallow embedding of the ServiceApp IP-deliverability reputation engine.

The definitions below are translated from the Go source:
* `internal/reputation/decision.go` — classifier (`DetermineIPStatus` and its
  helper predicates, `CalculateIPHealthCheck`);
* `internal/database/ip_reputation.go` — `ExtractDomain`, `IsMajorProvider`,
  `InsertSMTPFailure` (ON CONFLICT (event_id) DO NOTHING semantics);
* `internal/api/ip_reputation_handlers.go` — webhook ingestion and the
  failure-simulation test endpoint;
* `internal/reputation/aggregation.go` — per-IP aggregation step;
* `internal/api/routes.go` — `CleanupSingleIPBlocks`;
* the DNSBL probers (reputation prober `CheckDNSBL` and the provisioning
  `DNSBLChecker.CheckIP`).

Go `float64` rejection ratios are modelled as `ℚ` (all thresholds and ratios
of interest are far from representation boundaries), Go maps with the
`count, exists := m[k]; exists && count >= t` access pattern as total
functions `String → ℕ` defaulting to `0`, and Go string sets as `Finset`.
DNS resolution and the database are passed explicitly as values.
-/

namespace ServiceApp

/-! ### Data model: SMTP failures (`internal/database/ip_reputation.go`) -/

/-- One delivery-failure record (`SMTPFailure` in Go). Timestamps are
modelled as natural numbers (unix seconds). -/
structure SMTPFailure where
  sendingIP : String
  recipientEmail : String
  recipientDomain : String
  smtpCode : Nat
  enhancedCode : String
  reason : String
  mxServer : String
  timestamp : Nat
  eventID : String
  attemptNumber : Nat
deriving DecidableEq, Repr

/-- `IsMajorProvider`'s closed provider list from
`internal/database/ip_reputation.go`. -/
def majorProviderList : List String :=
  ["gmail.com", "googlemail.com", "outlook.com", "hotmail.com", "live.com",
   "yahoo.com", "ymail.com", "aol.com", "icloud.com", "me.com",
   "protonmail.com", "mail.com"]

/-- `IsMajorProvider(domain)`: membership in the closed list. -/
def isMajorProvider (domain : String) : Bool :=
  majorProviderList.any (fun p => p = domain)

/-- `ExtractDomain`'s loop, on the character list of the email: scan from the
right for `'@'` and return the suffix after the last one; if there is no
`'@'`, return the whole input. -/
def extractDomainList : List Char → List Char
  | [] => []
  | c :: rest =>
    if ('@' : Char) ∈ rest then extractDomainList rest
    else if c = '@' then rest
    else c :: rest

/-- `ExtractDomain(email)` from `internal/database/ip_reputation.go`. -/
def extractDomain (email : String) : String :=
  String.mk (extractDomainList email.data)

/-! ### Classifier (`internal/reputation/decision.go`) -/

/-- `ReputationConfig`. Ratios are `ℚ` (Go `float64`). -/
structure ReputationConfig where
  windowMinutes : Nat
  minVolumeForAssessment : Nat
  blacklistRejectionRatio : ℚ
  blacklistMinDomains : Nat
  blacklistMinMajorProviders : Nat
  quarantineRejectionRatio : ℚ
  quarantineMinDomains : Nat
  warningRejectionRatio : ℚ
  warningReputationCodeThreshold : Nat
deriving Repr

/-- `DefaultReputationConfig()`. The ratio fields are written with `mkRat`
(the same rational values as 0.05, 0.03, 0.02) so that concrete snapshots
evaluate by kernel reduction. -/
def defaultReputationConfig : ReputationConfig :=
  { windowMinutes := 15
    minVolumeForAssessment := 50
    blacklistRejectionRatio := mkRat 5 100
    blacklistMinDomains := 3
    blacklistMinMajorProviders := 2
    quarantineRejectionRatio := mkRat 3 100
    quarantineMinDomains := 2
    warningRejectionRatio := mkRat 2 100
    warningReputationCodeThreshold := 5 }

/-- `IPHealthCheck`: the derived snapshot the classifier consumes.
`reputationCodes` is the Go count map as a total function (absent key ↦ 0);
`majorProviders` is the Go slice of distinct major-provider domains as a
`Finset`. -/
structure IPHealthCheck where
  ip : String
  windowMinutes : Nat
  totalSent : Nat
  totalRejected : Nat
  rejectionRatio : ℚ
  uniqueDomainsRejected : Nat
  majorProviders : Finset String
  reputationCodes : String → Nat
  throttleCount : Nat

/-- PRIMARY reputation codes of `hasReputationRelatedCodes`. -/
def primaryCodes : List String := ["5.7.1", "5.7.606", "5.7.512"]

/-- AUTHENTICATION codes of `hasReputationRelatedCodes`. -/
def authCodes : List String := ["5.7.23", "5.7.26"]

/-- INFRASTRUCTURE codes of `hasReputationRelatedCodes`. -/
def infraCodes : List String := ["5.7.25", "5.7.27", "5.7.7", "5.1.8"]

/-- POLICY codes of `hasReputationRelatedCodes`. -/
def policyCodes : List String := ["4.7.0", "4.7.1", "5.7.510"]

/-- `hasReputationRelatedCodes(codes)`: some tier code reaches its per-tier
occurrence threshold (2 / 3 / 3 / 5). -/
def hasReputationRelatedCodes (codes : String → Nat) : Bool :=
  primaryCodes.any (fun c => decide (2 ≤ codes c)) ||
  authCodes.any (fun c => decide (3 ≤ codes c)) ||
  infraCodes.any (fun c => decide (3 ≤ codes c)) ||
  policyCodes.any (fun c => decide (5 ≤ codes c))

/-- `hasRepeated571Patterns(codes)`. -/
def hasRepeated571Patterns (codes : String → Nat) : Bool :=
  decide (5 ≤ codes "5.7.1")

/-- `isBlacklisted(metrics, config)`. -/
def isBlacklisted (m : IPHealthCheck) (c : ReputationConfig) : Bool :=
  decide (c.blacklistRejectionRatio < m.rejectionRatio) &&
  decide (c.blacklistMinDomains ≤ m.uniqueDomainsRejected) &&
  decide (c.blacklistMinMajorProviders ≤ m.majorProviders.card) &&
  hasReputationRelatedCodes m.reputationCodes

/-- `isQuarantined(metrics, config)`. -/
def isQuarantined (m : IPHealthCheck) (c : ReputationConfig) : Bool :=
  (decide (c.quarantineRejectionRatio < m.rejectionRatio) &&
     decide (1 ≤ m.majorProviders.card)) ||
  (decide (c.blacklistRejectionRatio < m.rejectionRatio) &&
     decide (c.quarantineMinDomains ≤ m.uniqueDomainsRejected))

/-- `isWarning(metrics, config)`. -/
def isWarning (m : IPHealthCheck) (c : ReputationConfig) : Bool :=
  decide (c.warningRejectionRatio ≤ m.rejectionRatio) ||
  (decide (10 < m.throttleCount) && decide (0 < m.totalRejected)) ||
  hasRepeated571Patterns m.reputationCodes

/-- `DetermineIPStatus(metrics, config)`: volume gate, then first matching
tier among blacklisted / quarantine / warning, else healthy. -/
def determineIPStatus (m : IPHealthCheck) (c : ReputationConfig) : String :=
  if m.totalSent < c.minVolumeForAssessment then "healthy"
  else if isBlacklisted m c then "blacklisted"
  else if isQuarantined m c then "quarantine"
  else if isWarning m c then "warning"
  else "healthy"

/-- `strings.HasPrefix(code, "4")`: true iff the first character is `'4'`
(for a single-character ASCII prefix this is exactly Go's byte test). -/
def startsWith4 (code : String) : Bool :=
  match code.data with
  | [] => false
  | c :: _ => decide (c = '4')

/-- The pure core of `CalculateIPHealthCheck`: fold the failure list in the
window into the derived snapshot. Field by field:
rejected = number of failures; ratio = rejected / sent when sent > 0 else 0;
unique domains = distinct recipient domains; major providers = distinct
recipient domains passing `IsMajorProvider`; per-code counts for non-empty
enhanced codes; throttle count = failures whose enhanced code starts
with "4". -/
def calculateIPHealthCheck (ip : String) (windowMinutes : Nat)
    (failures : List SMTPFailure) (totalSent : Nat) : IPHealthCheck :=
  { ip := ip
    windowMinutes := windowMinutes
    totalSent := totalSent
    totalRejected := failures.length
    rejectionRatio :=
      if 0 < totalSent then mkRat failures.length totalSent else 0
    uniqueDomainsRejected := (failures.map (·.recipientDomain)).toFinset.card
    majorProviders :=
      (failures.map (·.recipientDomain)).toFinset.filter
        (fun d => isMajorProvider d = true)
    reputationCodes := fun c =>
      if c = "" then 0
      else failures.countP (fun f => decide (f.enhancedCode = c))
    throttleCount := failures.countP (fun f => startsWith4 f.enhancedCode) }

/-! ### Event store (`InsertSMTPFailure`, ON CONFLICT (event_id) DO NOTHING)

The database table is modelled as the list of stored rows; the unique index
on `event_id` turns an insert into a conditional append. Infrastructure
failures are outside the model; the Go function returns `nil` both for a
fresh insert and for a duplicate, so the model returns the new store plus
the "actually inserted" bit. -/

/-- Does the store already hold a row with this fingerprint? -/
def hasEventID (store : List SMTPFailure) (eid : String) : Bool :=
  store.any (fun g => g.eventID = eid)

/-- `InsertSMTPFailure`: `ON CONFLICT (event_id) DO NOTHING` — a duplicate
fingerprint leaves the store unchanged and is not an error. -/
def insertSMTPFailure (store : List SMTPFailure) (f : SMTPFailure) :
    List SMTPFailure × Bool :=
  if hasEventID store f.eventID then (store, false) else (store ++ [f], true)

/-- Ingest a sequence of failure events in order. -/
def ingestAll (store : List SMTPFailure) (evts : List SMTPFailure) :
    List SMTPFailure :=
  evts.foldl (fun s f => (insertSMTPFailure s f).1) store

/-- Keep only the first event of each fingerprint. -/
def dedupByEventID : List SMTPFailure → List SMTPFailure
  | [] => []
  | e :: rest =>
    e :: dedupByEventID (rest.filter (fun g => decide (g.eventID ≠ e.eventID)))
termination_by l => l.length
decreasing_by
  exact Nat.lt_succ_of_le (List.length_filter_le _ _)

/-! ### Webhook ingestion (`processDeliveryFailureHandler`) -/

/-- The `data` object of one webhook event. -/
structure WebhookEventData where
  ip : String
  recipient : String
  smtpCode : Nat
  enhancedCode : String
  reason : String
  mx : String
  attemptNumber : Nat
deriving DecidableEq, Repr

/-- One webhook event. `createdAt` is `some t` when the payload carries a
parseable RFC3339 timestamp, else `none` (the handler then stamps the
event with the current time). -/
structure WebhookEvent where
  id : String
  createdAt : Option Nat
  type : String
  data : WebhookEventData
deriving DecidableEq, Repr

/-- The `SMTPFailure` record the handler builds from one event: the domain
is `ExtractDomain(recipient)`, the timestamp the parsed `createdAt` if
present, else `now`. -/
def webhookFailureRecord (e : WebhookEvent) (now : Nat) : SMTPFailure :=
  { sendingIP := e.data.ip
    recipientEmail := e.data.recipient
    recipientDomain := extractDomain e.data.recipient
    smtpCode := e.data.smtpCode
    enhancedCode := e.data.enhancedCode
    reason := e.data.reason
    mxServer := e.data.mx
    timestamp := e.createdAt.getD now
    eventID := e.id
    attemptNumber := e.data.attemptNumber }

/-- `processDeliveryFailureHandler`'s event loop: events whose type is not
`smtp.delivery.failure` are skipped; each remaining event is inserted and
counted as processed (in the model the store never fails, matching the Go
handler's duplicate path, which also returns `nil` and increments
`processedCount`). Result: final store, processed count, failed count. -/
def processDeliveryFailure (events : List WebhookEvent)
    (store : List SMTPFailure) (now : Nat) :
    List SMTPFailure × Nat × Nat :=
  events.foldl
    (fun acc e =>
      if e.type = "smtp.delivery.failure" then
        ((insertSMTPFailure acc.1 (webhookFailureRecord e now)).1,
          acc.2.1 + 1, acc.2.2)
      else acc)
    (store, 0, 0)

/-! ### Failure simulation (`simulateFailuresHandler`) -/

/-- One entry of the simulate-failures payload. -/
structure SimFailureSpec where
  code : String
  domain : String
  count : Nat
  reason : String
deriving DecidableEq, Repr

/-- The synthetic record built for the `i`-th copy of one payload entry,
with the unix second `t` the Go code reads from the clock at that
iteration: event id `"test-" ++ t ++ "-" ++ i`, timestamp backdated `i`
minutes. -/
def simulatedFailure (ip : String) (f : SimFailureSpec) (now t i : Nat) :
    SMTPFailure :=
  { sendingIP := ip
    recipientEmail := "test@" ++ f.domain
    recipientDomain := f.domain
    smtpCode := 550
    enhancedCode := f.code
    reason := f.reason
    mxServer := "mx." ++ f.domain
    timestamp := now - i * 60
    eventID := "test-" ++ toString t ++ "-" ++ toString i
    attemptNumber := 1 }

/-- Worker for `simulatedFailures`: threads the global iteration counter
`k` through the payload entries. -/
def simulatedFailuresAux (ip : String) (now : Nat) (clock : Nat → Nat) :
    List SimFailureSpec → Nat → List SMTPFailure
  | [], _ => []
  | f :: rest, k =>
    ((List.range f.count).map
        (fun i => simulatedFailure ip f now (clock (k + i)) i)) ++
      simulatedFailuresAux ip now clock rest (k + f.count)

/-- All records generated by `simulateFailuresHandler` for a payload, in
loop order. `clock k` is the unix second observed at the `k`-th insert
overall (the Go code calls `time.Now().Unix()` separately at every
iteration); the per-entry index `i` restarts at 0 for each payload entry. -/
def simulatedFailures (ip : String) (failures : List SimFailureSpec)
    (now : Nat) (clock : Nat → Nat) : List SMTPFailure :=
  simulatedFailuresAux ip now clock failures 0

/-! ### Aggregation step (`AggregationService.aggregateIPMetrics`) -/

/-- The stored per-IP row (`IPReputationMetrics`), restricted to the fields
the aggregation step writes from the snapshot. -/
structure IPReputationMetrics where
  ip : String
  totalSent : Nat
  totalRejected : Nat
  rejectionRatio : ℚ
  uniqueDomainsRejected : Nat
  majorProvidersRejecting : Finset String
  status : String
deriving DecidableEq

/-- An audit row (`IPAction`). -/
structure IPAction where
  ip : String
  action : String
  previousStatus : String
  newStatus : String
  triggeredBy : String
deriving DecidableEq, Repr

/-- The previous status the aggregation step reads: the stored row's status
when `GetIPReputationMetrics` succeeds, the sentinel `"unknown"` otherwise. -/
def oldStatusOf (prev : Option IPReputationMetrics) : String :=
  match prev with
  | some m => m.status
  | none => "unknown"

/-- The pure core of one `aggregateIPMetrics` pass for a single IP: compute
the status from the snapshot, build the row to upsert, and emit a
`status_change` action exactly when `oldStatus ≠ status ∧ oldStatus ≠
"unknown"` (the Go condition guarding `handleStatusChange`). -/
def aggregateIPMetricsStep (ip : String)
    (prev : Option IPReputationMetrics) (health : IPHealthCheck)
    (config : ReputationConfig) : IPReputationMetrics × List IPAction :=
  let oldStatus := oldStatusOf prev
  let status := determineIPStatus health config
  let metrics : IPReputationMetrics :=
    { ip := ip
      totalSent := health.totalSent
      totalRejected := health.totalRejected
      rejectionRatio := health.rejectionRatio
      uniqueDomainsRejected := health.uniqueDomainsRejected
      majorProvidersRejecting := health.majorProviders
      status := status }
  let actions : List IPAction :=
    if oldStatus ≠ status ∧ oldStatus ≠ "unknown" then
      [{ ip := ip
         action := "status_change"
         previousStatus := oldStatus
         newStatus := status
         triggeredBy := "automated_aggregation" }]
    else []
  (metrics, actions)

/-! ### Cleanup of single-IP blocks (`Service.CleanupSingleIPBlocks`) -/

/-- An upstream IP block (`IPBlock` with its `IPBlockProperties`). -/
structure IPBlock where
  id : String
  name : String
  size : Nat
  ips : List String
deriving DecidableEq, Repr

/-- A reserved-IP row, restricted to the fields cleanup reads. -/
structure ReservedIP where
  ipAddress : String
  reservationBlockID : String
  status : String
deriving DecidableEq, Repr

/-- The set of block ids referenced by a ReservedIP with status `in_use` or
`reserved` (the `inUseBlocks` map). -/
def inUseBlockIDs (reservedIPs : List ReservedIP) (blockID : String) : Bool :=
  reservedIPs.any (fun ip =>
    (decide (ip.status = "in_use") || decide (ip.status = "reserved")) &&
    decide (ip.reservationBlockID = blockID))

/-- The blocks `CleanupSingleIPBlocks` deletes (assuming the upstream delete
calls succeed): skip blocks with declared size 11 or exactly 11 listed IPs,
skip referenced blocks, delete blocks with declared size 1 or exactly one
listed IP. -/
def cleanupDeletedBlocks (blocks : List IPBlock)
    (reservedIPs : List ReservedIP) : List IPBlock :=
  blocks.filter (fun b =>
    !(decide (b.size = 11) || decide (b.ips.length = 11)) &&
    !(inUseBlockIDs reservedIPs b.id) &&
    (decide (b.size = 1) || decide (b.ips.length = 1)))

/-! ### DNSBL probers

DNS is modelled by a predicate `resolves : String → Bool` giving, for each
zone, whether the reverse-octet query against that zone resolved within its
deadline. The concurrent fan-outs collect exactly the zones whose lookup
succeeded; membership in the result is order-independent, so the collection
is modelled as a filter in zone-list order. -/

/-- `MajorDNSBLs` of the reputation prober (`CheckDNSBL`). -/
def majorDNSBLs : List String :=
  ["zen.spamhaus.org", "b.barracudacentral.org", "bl.spamcop.net",
   "cbl.abuseat.org", "dnsbl.sorbs.net", "bl.spamcannibal.org",
   "psbl.surriel.com", "dnsbl-1.uceprotect.net"]

/-- `checkAllDNSBLs`: every zone whose query resolves is appended to the
listings — there is no ignore-filtering in this prober. -/
def checkAllDNSBLs (resolves : String → Bool) : List String :=
  majorDNSBLs.filter resolves

/-- The provisioning checker's zone list (`NewDNSBLChecker`). -/
def checkerBlacklists : List String :=
  ["zen.spamhaus.org", "b.barracudacentral.org", "bl.spamcop.net",
   "cbl.abuseat.org", "dyna.spamrats.com", "noptr.spamrats.com",
   "spam.spamrats.com", "ix.dnsbl.manitu.net", "dnsbl.sorbs.net",
   "psbl.surriel.com", "ubl.unsubscore.com", "dnsbl.dronebl.org"]

/-- The provisioning checker's ignore list (`NewDNSBLChecker`). -/
def checkerIgnored : List String :=
  ["dnsbl-1.uceprotect.net", "dnsbl-2.uceprotect.net",
   "dnsbl-3.uceprotect.net", "sip.invaluement.com", "sip24.invaluement.com"]

/-- `DNSBLChecker.isIgnored`: some ignored name occurs as a substring of the
zone name (`strings.Contains`). -/
def isIgnored (ignored : List String) (blacklist : String) : Bool :=
  ignored.any (fun ig => decide (ig.data <:+: blacklist.data))

/-- `DNSBLChecker.CheckIP`'s listing collection: zones from the configured
list whose query resolved, with ignored zones filtered out of the result. -/
def checkIPListings (blacklists ignored : List String)
    (resolves : String → Bool) : List String :=
  (blacklists.filter resolves).filter (fun bl => !(isIgnored ignored bl))

/-! ### Spec-side classifier

A second rendering of the decision algorithm, written from the spec's
top-down description with the default thresholds inlined, to be compared
with the embedding of `DetermineIPStatus` above. -/

/-- Spec wording: some code of some tier reaches its per-tier threshold
(2 for 5.7.1/5.7.606/5.7.512; 3 for 5.7.23/5.7.26; 3 for
5.7.25/5.7.27/5.7.7/5.1.8; 5 for 4.7.0/4.7.1/5.7.510). -/
def specHasReputationCodes (codes : String → Nat) : Prop :=
  (2 ≤ codes "5.7.1" ∨ 2 ≤ codes "5.7.606" ∨ 2 ≤ codes "5.7.512") ∨
  (3 ≤ codes "5.7.23" ∨ 3 ≤ codes "5.7.26") ∨
  (3 ≤ codes "5.7.25" ∨ 3 ≤ codes "5.7.27" ∨ 3 ≤ codes "5.7.7" ∨
    3 ≤ codes "5.1.8") ∨
  (5 ≤ codes "4.7.0" ∨ 5 ≤ codes "4.7.1" ∨ 5 ≤ codes "5.7.510")

instance (codes : String → Nat) : Decidable (specHasReputationCodes codes) := by
  unfold specHasReputationCodes; infer_instance

/-- Spec wording of the blacklist tier (default thresholds). -/
def specIsBlacklisted (m : IPHealthCheck) : Prop :=
  (5 : ℚ) / 100 < m.rejectionRatio ∧ 3 ≤ m.uniqueDomainsRejected ∧
    2 ≤ m.majorProviders.card ∧ specHasReputationCodes m.reputationCodes

/-- Spec wording of the quarantine tier (default thresholds). -/
def specIsQuarantined (m : IPHealthCheck) : Prop :=
  ((3 : ℚ) / 100 < m.rejectionRatio ∧ 1 ≤ m.majorProviders.card) ∨
  ((5 : ℚ) / 100 < m.rejectionRatio ∧ 2 ≤ m.uniqueDomainsRejected)

/-- Spec wording of the warning tier (default thresholds). -/
def specIsWarning (m : IPHealthCheck) : Prop :=
  (2 : ℚ) / 100 ≤ m.rejectionRatio ∨
  (10 < m.throttleCount ∧ 0 < m.totalRejected) ∨
  5 ≤ m.reputationCodes "5.7.1"

instance (m : IPHealthCheck) : Decidable (specIsBlacklisted m) := by
  unfold specIsBlacklisted; infer_instance

instance (m : IPHealthCheck) : Decidable (specIsQuarantined m) := by
  unfold specIsQuarantined; infer_instance

instance (m : IPHealthCheck) : Decidable (specIsWarning m) := by
  unfold specIsWarning; infer_instance

/-- The spec's top-down algorithm with the default thresholds: volume gate
below 50, then blacklisted / quarantine / warning in order, else healthy. -/
def specDetermineIPStatus (m : IPHealthCheck) : String :=
  if m.totalSent < 50 then "healthy"
  else if specIsBlacklisted m then "blacklisted"
  else if specIsQuarantined m then "quarantine"
  else if specIsWarning m then "warning"
  else "healthy"

/-- The severity ordering of statuses:
healthy < warning < quarantine < blacklisted. -/
def statusRank (s : String) : Nat :=
  if s = "blacklisted" then 3
  else if s = "quarantine" then 2
  else if s = "warning" then 1
  else 0

/-- Pointwise dominance between derived snapshots with the same volume:
every signal the classifier reads is at least as bad on the right. -/
def Dominates (m m' : IPHealthCheck) : Prop :=
  m.totalSent = m'.totalSent ∧
  m.rejectionRatio ≤ m'.rejectionRatio ∧
  m.uniqueDomainsRejected ≤ m'.uniqueDomainsRejected ∧
  m.majorProviders.card ≤ m'.majorProviders.card ∧
  (∀ c, m.reputationCodes c ≤ m'.reputationCodes c) ∧
  m.throttleCount ≤ m'.throttleCount ∧
  m.totalRejected ≤ m'.totalRejected

/-- All enhanced codes of the four reputation tiers. -/
def reputationTierCodes : List String :=
  primaryCodes ++ authCodes ++ infraCodes ++ policyCodes

/-! ### Concrete inputs -/

/-- A synthesized failure record for concrete instances. -/
def mkTestFailure (ip domain code eid : String) : SMTPFailure :=
  { sendingIP := ip
    recipientEmail := "test@" ++ domain
    recipientDomain := domain
    smtpCode := 550
    enhancedCode := code
    reason := "r"
    mxServer := "mx." ++ domain
    timestamp := 0
    eventID := eid
    attemptNumber := 1 }

/-- Seed-suite case 15: failures (4.7.1, gmail.com, 8), (5.7.510,
outlook.com, 6), (5.4.1, yahoo.com, 4), with distinct fingerprints. -/
def case15Failures : List SMTPFailure :=
  ((List.range 8).map
      (fun i => mkTestFailure "203.0.113.24" "gmail.com" "4.7.1"
        ("a" ++ toString i))) ++
  ((List.range 6).map
      (fun i => mkTestFailure "203.0.113.24" "outlook.com" "5.7.510"
        ("b" ++ toString i))) ++
  ((List.range 4).map
      (fun i => mkTestFailure "203.0.113.24" "yahoo.com" "5.4.1"
        ("c" ++ toString i)))

/-- The derived snapshot of seed-suite case 15 with `total_sent = 500`. -/
def case15Health : IPHealthCheck :=
  calculateIPHealthCheck "203.0.113.24" 15 case15Failures 500

/-! ## Theorems -/

/-- The boolean tier check agrees with the spec-side tier proposition. -/
theorem hasReputationRelatedCodes_iff (codes : String → Nat) :
    hasReputationRelatedCodes codes = true ↔ specHasReputationCodes codes := by
  simp [hasReputationRelatedCodes, primaryCodes, authCodes, infraCodes,
    policyCodes, specHasReputationCodes, List.any_cons, List.any_nil,
    Bool.or_eq_true, decide_eq_true_eq, or_assoc]

/-- Blacklist predicate at the default thresholds, as a proposition. -/
theorem isBlacklisted_default_iff (m : IPHealthCheck) :
    isBlacklisted m defaultReputationConfig = true ↔ specIsBlacklisted m := by
  have h5 : (mkRat 5 100 : ℚ) = 5/100 := by
    norm_num [Rat.mkRat_eq_divInt, Rat.divInt_eq_div]
  simp [isBlacklisted, defaultReputationConfig, specIsBlacklisted,
    Bool.and_eq_true, decide_eq_true_eq, hasReputationRelatedCodes_iff, h5,
    and_assoc]


/-- Quarantine predicate at the default thresholds, as a proposition. -/
theorem isQuarantined_default_iff (m : IPHealthCheck) :
    isQuarantined m defaultReputationConfig = true ↔ specIsQuarantined m := by
  have h5 : (mkRat 5 100 : ℚ) = 5/100 := by
    norm_num [Rat.mkRat_eq_divInt, Rat.divInt_eq_div]
  have h3 : (mkRat 3 100 : ℚ) = 3/100 := by
    norm_num [Rat.mkRat_eq_divInt, Rat.divInt_eq_div]
  simp [isQuarantined, defaultReputationConfig, specIsQuarantined,
    Bool.or_eq_true, Bool.and_eq_true, decide_eq_true_eq, h5, h3]

/-- Warning predicate at the default thresholds, as a proposition. -/
theorem isWarning_default_iff (m : IPHealthCheck) :
    isWarning m defaultReputationConfig = true ↔ specIsWarning m := by
  have h2 : (mkRat 2 100 : ℚ) = 2/100 := by
    norm_num [Rat.mkRat_eq_divInt, Rat.divInt_eq_div]
  simp [isWarning, defaultReputationConfig, specIsWarning,
    hasRepeated571Patterns, Bool.or_eq_true, Bool.and_eq_true,
    decide_eq_true_eq, h2, or_assoc]

/-- C1: for every derived snapshot, `DetermineIPStatus` with the default
thresholds returns exactly the first matching tier of the spec's top-down
algorithm: healthy below 50 sent; else blacklisted iff ratio > 0.05 and at
least 3 domains and at least 2 major providers and a reputation-tier code
triggered; else quarantine iff (ratio > 0.03 with a major provider) or
(ratio > 0.05 with at least 2 domains); else warning iff ratio ≥ 0.02 or
(throttles > 10 with a rejection) or at least five 5.7.1; else healthy. -/
theorem determineIPStatus_default_eq_spec (m : IPHealthCheck) :
    determineIPStatus m defaultReputationConfig = specDetermineIPStatus m := by
  have hmin : defaultReputationConfig.minVolumeForAssessment = 50 := rfl
  by_cases h1 : m.totalSent < 50
  · simp [determineIPStatus, specDetermineIPStatus, hmin, h1]
  · by_cases h2 : specIsBlacklisted m
    · simp [determineIPStatus, specDetermineIPStatus, hmin, h1, h2,
        (isBlacklisted_default_iff m).mpr h2]
    · have h2' : isBlacklisted m defaultReputationConfig = false := by
        rw [Bool.eq_false_iff]
        intro hc
        exact h2 ((isBlacklisted_default_iff m).mp hc)
      by_cases h3 : specIsQuarantined m
      · simp [determineIPStatus, specDetermineIPStatus, hmin, h1, h2, h2', h3,
          (isQuarantined_default_iff m).mpr h3]
      · have h3' : isQuarantined m defaultReputationConfig = false := by
          rw [Bool.eq_false_iff]
          intro hc
          exact h3 ((isQuarantined_default_iff m).mp hc)
        by_cases h4 : specIsWarning m
        · simp [determineIPStatus, specDetermineIPStatus, hmin, h1, h2, h2',
            h3, h3', h4, (isWarning_default_iff m).mpr h4]
        · have h4' : isWarning m defaultReputationConfig = false := by
            rw [Bool.eq_false_iff]
            intro hc
            exact h4 ((isWarning_default_iff m).mp hc)
          simp [determineIPStatus, specDetermineIPStatus, hmin, h1, h2, h2',
            h3, h3', h4, h4']


/-- C2 (counterexample): on the snapshot of seed-suite case 15 the
classifier with default thresholds does not return "warning". -/
theorem case15_not_warning :
    determineIPStatus case15Health defaultReputationConfig ≠ "warning" := by
  decide

/-- C2 (amended): seed-suite case 15 derives total_rejected 18, ratio
18/500 and the three major providers, and the classifier with default
thresholds returns "quarantine" (ratio 0.036 > 0.03 with a major provider
matches the quarantine tier before the warning tier is reached). -/
theorem case15_quarantine :
    case15Health.totalRejected = 18 ∧
    case15Health.rejectionRatio = mkRat 18 500 ∧
    case15Health.majorProviders =
      ({"gmail.com", "outlook.com", "yahoo.com"} : Finset String) ∧
    determineIPStatus case15Health defaultReputationConfig = "quarantine" := by
  decide

/-- `extractDomainList` returns the suffix after the last at sign, or the
whole input when there is none. -/
theorem extractDomainList_spec (l : List Char) :
    (∃ pre, l = pre ++ '@' :: extractDomainList l ∧
      ('@' : Char) ∉ extractDomainList l) ∨
    (('@' : Char) ∉ l ∧ extractDomainList l = l) := by
  induction l with
  | nil =>
    right
    exact ⟨List.not_mem_nil _, rfl⟩
  | cons c rest ih =>
    by_cases hrest : ('@' : Char) ∈ rest
    · have hred : extractDomainList (c :: rest) = extractDomainList rest := by
        simp [extractDomainList, hrest]
      rcases ih with ⟨pre, hpre, hnot⟩ | ⟨hno, _⟩
      · left
        refine ⟨c :: pre, ?_, ?_⟩
        · rw [hred, List.cons_append]
          exact congrArg (c :: ·) hpre
        · rw [hred]; exact hnot
      · exact absurd hrest hno
    · by_cases hc : c = '@'
      · have hred : extractDomainList (c :: rest) = rest := by
          simp [extractDomainList, hrest, hc]
        left
        refine ⟨[], ?_, ?_⟩
        · rw [hred, List.nil_append, hc]
        · rw [hred]; exact hrest
      · have hred : extractDomainList (c :: rest) = c :: rest := by
          simp [extractDomainList, hrest, hc]
        right
        refine ⟨?_, hred⟩
        intro hmem
        rcases List.mem_cons.mp hmem with h | h
        · exact hc h.symm
        · exact hrest h


/-- C4 (counterexample): the stored domain preserves case; for
"local@DoMaIn.TLD" it is "DoMaIn.TLD", not the lower-cased "domain.tld". -/
theorem extractDomain_mixed_case_not_lowered :
    extractDomain "local@DoMaIn.TLD" = "DoMaIn.TLD" ∧
    extractDomain "local@DoMaIn.TLD" ≠ "domain.tld" := by
  decide

/-- C4 (amended): the webhook stores recipient_domain =
ExtractDomain(recipient), which is exactly the substring after the final
at sign of the address with its original casing (the whole address when
there is no at sign); no lower-casing is applied. -/
theorem extractDomain_after_last_at :
    (∀ s : String,
      (∃ pre, s.data = pre ++ '@' :: (extractDomain s).data ∧
        ('@' : Char) ∉ (extractDomain s).data) ∨
      (('@' : Char) ∉ s.data ∧ extractDomain s = s)) ∧
    (∀ (e : WebhookEvent) (now : Nat),
      (webhookFailureRecord e now).recipientDomain =
        extractDomain e.data.recipient) := by
  constructor
  · intro s
    have h := extractDomainList_spec s.data
    rcases h with ⟨pre, hpre, hnot⟩ | ⟨hno, heq⟩
    · left
      exact ⟨pre, hpre, hnot⟩
    · right
      refine ⟨hno, ?_⟩
      show String.mk (extractDomainList s.data) = s
      rw [heq]
  · intro e now
    rfl

/-- C10: on any input without an at sign, `ExtractDomain` returns the
entire input unchanged, so a malformed recipient address is stored with
recipient_domain equal to the full recipient string. -/
theorem extractDomain_without_at (s : String)
    (h : ('@' : Char) ∉ s.data) :
    extractDomain s = s ∧
    (∀ (e : WebhookEvent) (now : Nat), e.data.recipient = s →
      (webhookFailureRecord e now).recipientDomain = s) := by
  have hspec := extractDomainList_spec s.data
  have heq : extractDomain s = s := by
    rcases hspec with ⟨pre, hpre, _⟩ | ⟨_, hl⟩
    · exfalso
      apply h
      rw [hpre]
      exact List.mem_append.mpr (Or.inr (List.mem_cons_self _ _))
    · show String.mk (extractDomainList s.data) = s
      rw [hl]
  refine ⟨heq, ?_⟩
  intro e now hrec
  show extractDomain e.data.recipient = s
  rw [hrec, heq]

/-- C10 witness at a concrete at-sign-free input. -/
theorem extractDomain_without_at_witness :
    (('@' : Char) ∉ "noatsign".data) ∧ extractDomain "noatsign" = "noatsign" :=
  ⟨by decide, (extractDomain_without_at "noatsign" (by decide)).1⟩


/-- Inserting never removes a fingerprint from the store. -/
theorem hasEventID_insert_mono (store : List SMTPFailure) (f : SMTPFailure)
    (eid : String) (h : hasEventID store eid = true) :
    hasEventID (insertSMTPFailure store f).1 eid = true := by
  unfold insertSMTPFailure
  by_cases hd : hasEventID store f.eventID
  · simp [hd, h]
  · simp only [hd, Bool.false_eq_true, if_false]
    unfold hasEventID at h ⊢
    rw [List.any_append, h, Bool.true_or]

/-- After inserting an event its fingerprint is in the store. -/
theorem hasEventID_insert_self (store : List SMTPFailure) (f : SMTPFailure) :
    hasEventID (insertSMTPFailure store f).1 f.eventID = true := by
  unfold insertSMTPFailure
  by_cases hd : hasEventID store f.eventID
  · simp [hd]
  · simp only [hd, Bool.false_eq_true, if_false]
    unfold hasEventID
    rw [List.any_append]
    simp

/-- Events whose fingerprint is already stored can be dropped from an
ingest sequence without changing the final store. -/
theorem ingestAll_filter_dup (eid : String) :
    ∀ (evts : List SMTPFailure) (store : List SMTPFailure),
      hasEventID store eid = true →
      ingestAll store (evts.filter (fun g => decide (g.eventID ≠ eid))) =
        ingestAll store evts := by
  intro evts
  induction evts with
  | nil => intro store _; rfl
  | cons f rest ih =>
    intro store h
    by_cases hf : f.eventID = eid
    · have hdrop : (decide (f.eventID ≠ eid)) = false := by simp [hf]
      have hdup : insertSMTPFailure store f = (store, false) := by
        unfold insertSMTPFailure
        rw [hf, h]
        simp
      calc ingestAll store ((f :: rest).filter (fun g => decide (g.eventID ≠ eid)))
          = ingestAll store (rest.filter (fun g => decide (g.eventID ≠ eid))) := by
            rw [List.filter_cons, hdrop]
            simp
        _ = ingestAll store rest := ih store h
        _ = ingestAll (insertSMTPFailure store f).1 rest := by rw [hdup]
        _ = ingestAll store (f :: rest) := rfl
    · have hkeep : (decide (f.eventID ≠ eid)) = true := by simp [hf]
      have h' : hasEventID (insertSMTPFailure store f).1 eid = true :=
        hasEventID_insert_mono store f eid h
      calc ingestAll store ((f :: rest).filter (fun g => decide (g.eventID ≠ eid)))
          = ingestAll (insertSMTPFailure store f).1
              (rest.filter (fun g => decide (g.eventID ≠ eid))) := by
            rw [List.filter_cons, hkeep]
            rfl
        _ = ingestAll (insertSMTPFailure store f).1 rest := ih _ h'
        _ = ingestAll store (f :: rest) := rfl

/-- Ingesting a sequence equals ingesting its fingerprint-deduplication. -/
theorem ingestAll_dedup_aux :
    ∀ (n : Nat) (evts : List SMTPFailure) (store : List SMTPFailure),
      evts.length ≤ n →
      ingestAll store evts = ingestAll store (dedupByEventID evts) := by
  intro n
  induction n with
  | zero =>
    intro evts store hlen
    rw [List.length_eq_zero.mp (Nat.le_zero.mp hlen), dedupByEventID]
  | succ n ih =>
    intro evts store hlen
    match evts with
    | [] => rw [dedupByEventID]
    | e :: rest =>
      have hlen' : (rest.filter (fun g => decide (g.eventID ≠ e.eventID))).length ≤ n := by
        have h1 := List.length_filter_le (fun g => decide (g.eventID ≠ e.eventID)) rest
        have h2 : rest.length ≤ n := Nat.le_of_succ_le_succ hlen
        exact Nat.le_trans h1 h2
      have hself : hasEventID (insertSMTPFailure store e).1 e.eventID = true :=
        hasEventID_insert_self store e
      calc ingestAll store (e :: rest)
          = ingestAll (insertSMTPFailure store e).1 rest := rfl
        _ = ingestAll (insertSMTPFailure store e).1
              (rest.filter (fun g => decide (g.eventID ≠ e.eventID))) :=
            (ingestAll_filter_dup e.eventID rest _ hself).symm
        _ = ingestAll (insertSMTPFailure store e).1
              (dedupByEventID (rest.filter (fun g => decide (g.eventID ≠ e.eventID)))) :=
            ih _ _ hlen'
        _ = ingestAll store (e :: dedupByEventID
              (rest.filter (fun g => decide (g.eventID ≠ e.eventID)))) := rfl
        _ = ingestAll store (dedupByEventID (e :: rest)) := by
            rw [dedupByEventID]


/-- The webhook loop over events whose fingerprints are already stored
leaves the store unchanged and counts every failure-type event as
processed. -/
theorem processFold_dup (now : Nat) :
    ∀ (events : List WebhookEvent) (store : List SMTPFailure) (p q : Nat),
      (∀ e ∈ events, e.type = "smtp.delivery.failure" →
        hasEventID store e.id = true) →
      events.foldl
        (fun acc e =>
          if e.type = "smtp.delivery.failure" then
            ((insertSMTPFailure acc.1 (webhookFailureRecord e now)).1,
              acc.2.1 + 1, acc.2.2)
          else acc)
        (store, p, q) =
      (store, p + events.countP
        (fun e => decide (e.type = "smtp.delivery.failure")), q) := by
  intro events
  induction events with
  | nil => intro store p q _; simp
  | cons e rest ih =>
    intro store p q h
    by_cases ht : e.type = "smtp.delivery.failure"
    · have hid : hasEventID store (webhookFailureRecord e now).eventID = true :=
        h e (List.mem_cons_self _ _) ht
      have hdup : insertSMTPFailure store (webhookFailureRecord e now) =
          (store, false) := by
        unfold insertSMTPFailure
        rw [hid]
        simp
      have hrest : ∀ e' ∈ rest, e'.type = "smtp.delivery.failure" →
          hasEventID store e'.id = true :=
        fun e' he' => h e' (List.mem_cons_of_mem _ he')
      rw [List.foldl_cons, List.countP_cons]
      simp only [ht, if_true, hdup, decide_eq_true_eq, ite_true]
      rw [ih store (p + 1) q hrest]
      ring_nf
    · have hrest : ∀ e' ∈ rest, e'.type = "smtp.delivery.failure" →
          hasEventID store e'.id = true :=
        fun e' he' => h e' (List.mem_cons_of_mem _ he')
      rw [List.foldl_cons, List.countP_cons]
      simp only [ht, if_false, decide_eq_true_eq, ite_false]
      rw [ih store p q hrest]
      simp [ht]


/-- C6: a failure whose fingerprint already exists leaves the store
unchanged, is reported as not newly inserted, and is never an error;
ingesting a sequence equals ingesting its deduplication; and the webhook
counts duplicate events as processed with zero failures. -/
theorem recordFailure_duplicate_noop :
    (∀ (store : List SMTPFailure) (f : SMTPFailure),
      hasEventID store f.eventID = true →
      insertSMTPFailure store f = (store, false)) ∧
    (∀ (store evts : List SMTPFailure),
      ingestAll store evts = ingestAll store (dedupByEventID evts)) ∧
    (∀ (events : List WebhookEvent) (store : List SMTPFailure) (now : Nat),
      (∀ e ∈ events, e.type = "smtp.delivery.failure" →
        hasEventID store e.id = true) →
      processDeliveryFailure events store now =
        (store,
          events.countP (fun e => decide (e.type = "smtp.delivery.failure")),
          0)) := by
  refine ⟨?_, ?_, ?_⟩
  · intro store f h
    unfold insertSMTPFailure
    rw [h]
    simp
  · intro store evts
    exact ingestAll_dedup_aux evts.length evts store (Nat.le_refl _)
  · intro events store now h
    unfold processDeliveryFailure
    rw [processFold_dup now events store 0 0 h]
    rw [Nat.zero_add]

/-- C6 witness at a concrete one-row store and colliding event. -/
theorem recordFailure_duplicate_noop_witness :
    hasEventID [mkTestFailure "1.2.3.4" "gmail.com" "5.7.1" "evt-1"]
        (mkTestFailure "1.2.3.4" "yahoo.com" "5.1.1" "evt-1").eventID = true ∧
    insertSMTPFailure [mkTestFailure "1.2.3.4" "gmail.com" "5.7.1" "evt-1"]
        (mkTestFailure "1.2.3.4" "yahoo.com" "5.1.1" "evt-1") =
      ([mkTestFailure "1.2.3.4" "gmail.com" "5.7.1" "evt-1"], false) :=
  ⟨by decide, recordFailure_duplicate_noop.1 _ _ (by decide)⟩


/-- Appending failures only worsens every derived snapshot signal. -/
theorem dominates_append (ip : String) (w : Nat)
    (F G : List SMTPFailure) (sent : Nat) :
    Dominates (calculateIPHealthCheck ip w F sent)
      (calculateIPHealthCheck ip w (F ++ G) sent) := by
  refine ⟨rfl, ?_, ?_, ?_, ?_, ?_, ?_⟩
  · show (if 0 < sent then mkRat F.length sent else 0) ≤
      (if 0 < sent then mkRat (F ++ G).length sent else 0)
    by_cases hs : 0 < sent
    · rw [if_pos hs, if_pos hs, Rat.mkRat_eq_divInt, Rat.mkRat_eq_divInt,
        Rat.divInt_eq_div, Rat.divInt_eq_div]
      have hc : (0 : ℚ) < (sent : ℤ) := by exact_mod_cast hs
      rw [div_le_div_iff_of_pos_right hc]
      have : F.length ≤ (F ++ G).length := by
        rw [List.length_append]; exact Nat.le_add_right _ _
      exact_mod_cast this
    · rw [if_neg hs, if_neg hs]
  · show ((F.map (·.recipientDomain)).toFinset).card ≤
      (((F ++ G).map (·.recipientDomain)).toFinset).card
    apply Finset.card_le_card
    rw [List.map_append, List.toFinset_append]
    exact Finset.subset_union_left
  · show (((F.map (·.recipientDomain)).toFinset).filter
        (fun d => isMajorProvider d = true)).card ≤
      ((((F ++ G).map (·.recipientDomain)).toFinset).filter
        (fun d => isMajorProvider d = true)).card
    apply Finset.card_le_card
    apply Finset.filter_subset_filter
    rw [List.map_append, List.toFinset_append]
    exact Finset.subset_union_left
  · intro c
    show (if c = "" then 0 else F.countP (fun f => decide (f.enhancedCode = c))) ≤
      (if c = "" then 0 else (F ++ G).countP (fun f => decide (f.enhancedCode = c)))
    by_cases hc : c = ""
    · rw [if_pos hc, if_pos hc]
    · rw [if_neg hc, if_neg hc, List.countP_append]
      exact Nat.le_add_right _ _
  · show F.countP (fun f => startsWith4 f.enhancedCode) ≤
      (F ++ G).countP (fun f => startsWith4 f.enhancedCode)
    rw [List.countP_append]
    exact Nat.le_add_right _ _
  · show F.length ≤ (F ++ G).length
    rw [List.length_append]
    exact Nat.le_add_right _ _


/-- A satisfied per-code threshold stays satisfied under larger counts. -/
theorem any_threshold_mono (codes codes' : String → Nat)
    (h : ∀ c, codes c ≤ codes' c) (l : List String) (t : Nat)
    (ha : l.any (fun c => decide (t ≤ codes c)) = true) :
    l.any (fun c => decide (t ≤ codes' c)) = true := by
  simp only [List.any_eq_true, decide_eq_true_eq] at ha ⊢
  obtain ⟨c, hc, hle⟩ := ha
  exact ⟨c, hc, Nat.le_trans hle (h c)⟩

/-- The tier check is monotone in the code counts. -/
theorem hasReputationRelatedCodes_mono (codes codes' : String → Nat)
    (h : ∀ c, codes c ≤ codes' c)
    (hc : hasReputationRelatedCodes codes = true) :
    hasReputationRelatedCodes codes' = true := by
  unfold hasReputationRelatedCodes at hc ⊢
  rcases Bool.or_eq_true_iff.mp hc with h1 | h1
  · rcases Bool.or_eq_true_iff.mp h1 with h2 | h2
    · rcases Bool.or_eq_true_iff.mp h2 with h3 | h3
      · rw [any_threshold_mono codes codes' h _ _ h3]
        simp
      · rw [any_threshold_mono codes codes' h _ _ h3]
        simp
    · rw [any_threshold_mono codes codes' h _ _ h2]
      simp
  · rw [any_threshold_mono codes codes' h _ _ h1]
    simp


/-- The blacklist predicate is monotone under snapshot dominance. -/
theorem isBlacklisted_mono (m m' : IPHealthCheck) (cfg : ReputationConfig)
    (hdom : Dominates m m') (hb : isBlacklisted m cfg = true) :
    isBlacklisted m' cfg = true := by
  obtain ⟨hts, hr, hu, hmp, hcodes, hth, hrej⟩ := hdom
  simp only [isBlacklisted, Bool.and_eq_true, decide_eq_true_eq] at hb ⊢
  obtain ⟨⟨⟨h1, h2⟩, h3⟩, h4⟩ := hb
  exact ⟨⟨⟨lt_of_lt_of_le h1 hr, Nat.le_trans h2 hu⟩, Nat.le_trans h3 hmp⟩,
    hasReputationRelatedCodes_mono _ _ hcodes h4⟩

/-- The quarantine predicate is monotone under snapshot dominance. -/
theorem isQuarantined_mono (m m' : IPHealthCheck) (cfg : ReputationConfig)
    (hdom : Dominates m m') (hq : isQuarantined m cfg = true) :
    isQuarantined m' cfg = true := by
  obtain ⟨hts, hr, hu, hmp, hcodes, hth, hrej⟩ := hdom
  simp only [isQuarantined, Bool.or_eq_true, Bool.and_eq_true,
    decide_eq_true_eq] at hq ⊢
  rcases hq with ⟨h1, h2⟩ | ⟨h1, h2⟩
  · exact Or.inl ⟨lt_of_lt_of_le h1 hr, Nat.le_trans h2 hmp⟩
  · exact Or.inr ⟨lt_of_lt_of_le h1 hr, Nat.le_trans h2 hu⟩

/-- The warning predicate is monotone under snapshot dominance. -/
theorem isWarning_mono (m m' : IPHealthCheck) (cfg : ReputationConfig)
    (hdom : Dominates m m') (hw : isWarning m cfg = true) :
    isWarning m' cfg = true := by
  obtain ⟨hts, hr, hu, hmp, hcodes, hth, hrej⟩ := hdom
  simp only [isWarning, hasRepeated571Patterns, Bool.or_eq_true,
    Bool.and_eq_true, decide_eq_true_eq] at hw ⊢
  rcases hw with (h1 | ⟨h1, h2⟩) | h1
  · exact Or.inl (Or.inl (le_trans h1 hr))
  · exact Or.inl (Or.inr ⟨Nat.lt_of_lt_of_le h1 hth, Nat.lt_of_lt_of_le h2 hrej⟩)
  · exact Or.inr (Nat.le_trans h1 (hcodes "5.7.1"))

/-- Above the volume gate, the classifier status rank is monotone under
snapshot dominance. -/
theorem determineIPStatus_rank_mono (m m' : IPHealthCheck)
    (cfg : ReputationConfig) (hdom : Dominates m m')
    (hgate : cfg.minVolumeForAssessment ≤ m.totalSent) :
    statusRank (determineIPStatus m cfg) ≤
      statusRank (determineIPStatus m' cfg) := by
  have hts : m.totalSent = m'.totalSent := hdom.1
  have hn : ¬(m.totalSent < cfg.minVolumeForAssessment) := not_lt.mpr hgate
  have hn' : ¬(m'.totalSent < cfg.minVolumeForAssessment) :=
    not_lt.mpr (hts ▸ hgate)
  unfold determineIPStatus
  rw [if_neg hn, if_neg hn']
  by_cases hb : isBlacklisted m cfg = true
  · rw [if_pos hb, if_pos (isBlacklisted_mono m m' cfg hdom hb)]
  · rw [if_neg hb]
    by_cases hq : isQuarantined m cfg = true
    · rw [if_pos hq]
      by_cases hb' : isBlacklisted m' cfg = true
      · rw [if_pos hb']
        simp [statusRank]
      · rw [if_neg hb', if_pos (isQuarantined_mono m m' cfg hdom hq)]
    · rw [if_neg hq]
      by_cases hw : isWarning m cfg = true
      · rw [if_pos hw]
        by_cases hb' : isBlacklisted m' cfg = true
        · rw [if_pos hb']
          simp [statusRank]
        · rw [if_neg hb']
          by_cases hq' : isQuarantined m' cfg = true
          · rw [if_pos hq']
            simp [statusRank]
          · rw [if_neg hq', if_pos (isWarning_mono m m' cfg hdom hw)]
      · rw [if_neg hw]
        simp [statusRank]


/-- C5: with total_sent fixed at or above min_volume_for_assessment,
extending the failure multiset by failures carrying reputation-tier codes
never lowers the classifier status in the ordering healthy < warning <
quarantine < blacklisted. -/
theorem classifier_status_monotone (ip : String) (w : Nat)
    (F G : List SMTPFailure) (sent : Nat) (cfg : ReputationConfig)
    (hsent : cfg.minVolumeForAssessment ≤ sent)
    (hG : ∀ f ∈ G, f.enhancedCode ∈ reputationTierCodes) :
    statusRank (determineIPStatus (calculateIPHealthCheck ip w F sent) cfg) ≤
      statusRank
        (determineIPStatus (calculateIPHealthCheck ip w (F ++ G) sent) cfg) :=
  determineIPStatus_rank_mono _ _ cfg (dominates_append ip w F G sent) hsent

/-- C5 witness: empty window extended by one 5.7.1 failure at volume 50. -/
theorem classifier_status_monotone_witness :
    defaultReputationConfig.minVolumeForAssessment ≤ 50 ∧
    (∀ f ∈ [mkTestFailure "203.0.113.5" "gmail.com" "5.7.1" "w0"],
      f.enhancedCode ∈ reputationTierCodes) ∧
    statusRank (determineIPStatus
        (calculateIPHealthCheck "203.0.113.5" 15 [] 50)
        defaultReputationConfig) ≤
      statusRank (determineIPStatus
        (calculateIPHealthCheck "203.0.113.5" 15
          ([] ++ [mkTestFailure "203.0.113.5" "gmail.com" "5.7.1" "w0"]) 50)
        defaultReputationConfig) :=
  ⟨by decide, by decide,
    classifier_status_monotone "203.0.113.5" 15 []
      [mkTestFailure "203.0.113.5" "gmail.com" "5.7.1" "w0"] 50
      defaultReputationConfig (by decide) (by decide)⟩


/-- C3 (counterexample): the reputation prober CheckDNSBL applies no
ignore-filter — its own zone list contains dnsbl-1.uceprotect.net, and when
that zone resolves it appears in the returned listings even though it
matches the provisioning checker's ignore-list. -/
theorem checkDNSBL_lists_ignored_zone :
    "dnsbl-1.uceprotect.net" ∈ checkAllDNSBLs (fun _ => true) ∧
    isIgnored checkerIgnored "dnsbl-1.uceprotect.net" = true := by
  decide

/-- C3 (amended): the provisioning DNSBLChecker.CheckIP honors the
ignore-list — every zone it returns resolved, comes from its configured
list, and matches no ignored family; the reputation prober CheckDNSBL has
no such filter. -/
theorem checkIPListings_never_ignored (blacklists ignored : List String)
    (resolves : String → Bool) (z : String)
    (hz : z ∈ checkIPListings blacklists ignored resolves) :
    isIgnored ignored z = false ∧ z ∈ blacklists ∧ resolves z = true := by
  unfold checkIPListings at hz
  have h1 := List.mem_filter.mp hz
  have h2 := List.mem_filter.mp h1.1
  refine ⟨?_, h2.1, h2.2⟩
  have := h1.2
  simp only [Bool.not_eq_true'] at this
  exact this

/-- C3 witness: a resolving Spamhaus zone is listed and is not ignored. -/
theorem checkIPListings_never_ignored_witness :
    ("zen.spamhaus.org" ∈ checkIPListings checkerBlacklists checkerIgnored
      (fun _ => true)) ∧
    isIgnored checkerIgnored "zen.spamhaus.org" = false :=
  ⟨by decide,
    (checkIPListings_never_ignored checkerBlacklists checkerIgnored
      (fun _ => true) "zen.spamhaus.org" (by decide)).1⟩


/-- C7 (counterexample): a block with declared size 2 carrying exactly
one IP is deleted by cleanup, so cleanup does not delete exactly the
declared-size-1 unreferenced blocks. -/
theorem cleanup_deletes_block_of_declared_size_two :
    cleanupDeletedBlocks
        [{ id := "b1", name := "n", size := 2, ips := ["10.0.0.1"] }] [] =
      [{ id := "b1", name := "n", size := 2, ips := ["10.0.0.1"] }] ∧
    (2 : Nat) ≠ 1 := by
  decide

/-- C7 (amended): cleanup never deletes a block of declared size 11, and
it deletes exactly the inventory blocks that are not of declared size 11,
do not carry exactly 11 IPs, are not referenced by a ReservedIP with
status reserved or in_use, and have declared size 1 or carry exactly one
IP. -/
theorem cleanupSingleIPBlocks_spec :
    (∀ (blocks : List IPBlock) (res : List ReservedIP) (b : IPBlock),
      b ∈ cleanupDeletedBlocks blocks res → b.size ≠ 11) ∧
    (∀ (blocks : List IPBlock) (res : List ReservedIP) (b : IPBlock),
      b ∈ cleanupDeletedBlocks blocks res ↔
        (b ∈ blocks ∧ b.size ≠ 11 ∧ b.ips.length ≠ 11 ∧
          inUseBlockIDs res b.id = false ∧
          (b.size = 1 ∨ b.ips.length = 1))) := by
  have hmem : ∀ (blocks : List IPBlock) (res : List ReservedIP) (b : IPBlock),
      b ∈ cleanupDeletedBlocks blocks res ↔
        (b ∈ blocks ∧ b.size ≠ 11 ∧ b.ips.length ≠ 11 ∧
          inUseBlockIDs res b.id = false ∧
          (b.size = 1 ∨ b.ips.length = 1)) := by
    intro blocks res b
    unfold cleanupDeletedBlocks
    rw [List.mem_filter]
    simp only [Bool.and_eq_true, Bool.not_eq_true', Bool.or_eq_false_iff,
      Bool.or_eq_true, decide_eq_false_iff_not, decide_eq_true_eq]
    tauto
  exact ⟨fun blocks res b hb => ((hmem blocks res b).mp hb).2.1, hmem⟩

/-- C7 witness: a deleted single-IP block has declared size not 11. -/
theorem cleanupSingleIPBlocks_spec_witness :
    ({ id := "b2", name := "m", size := 1, ips := ["10.0.0.2"] } : IPBlock) ∈
      cleanupDeletedBlocks
        [{ id := "b2", name := "m", size := 1, ips := ["10.0.0.2"] }] [] ∧
    ({ id := "b2", name := "m", size := 1, ips := ["10.0.0.2"] } : IPBlock).size
      ≠ 11 :=
  ⟨by decide,
    cleanupSingleIPBlocks_spec.1
      [{ id := "b2", name := "m", size := 1, ips := ["10.0.0.2"] }] []
      { id := "b2", name := "m", size := 1, ips := ["10.0.0.2"] } (by decide)⟩


/-- C8: one aggregation pass emits a status_change IPAction iff the
previously stored status exists (is not the sentinel "unknown") and
differs from the newly computed status; a first observation emits nothing;
and every emitted action carries action = status_change, the new status
just upserted, the previous status, and the IP. -/
theorem aggregation_status_change_audit (ip : String)
    (prev : Option IPReputationMetrics) (health : IPHealthCheck)
    (cfg : ReputationConfig) :
    ((aggregateIPMetricsStep ip prev health cfg).2 ≠ [] ↔
      (oldStatusOf prev ≠ "unknown" ∧
        oldStatusOf prev ≠ (aggregateIPMetricsStep ip prev health cfg).1.status)) ∧
    (prev = none → (aggregateIPMetricsStep ip prev health cfg).2 = []) ∧
    (∀ a ∈ (aggregateIPMetricsStep ip prev health cfg).2,
      a.action = "status_change" ∧
      a.newStatus = (aggregateIPMetricsStep ip prev health cfg).1.status ∧
      a.previousStatus = oldStatusOf prev ∧
      a.ip = ip) := by
  unfold aggregateIPMetricsStep
  by_cases h : oldStatusOf prev ≠ determineIPStatus health cfg ∧
      oldStatusOf prev ≠ "unknown"
  · simp only [if_pos h]
    refine ⟨⟨fun _ => ⟨h.2, h.1⟩, fun _ => by simp⟩, ?_, ?_⟩
    · intro hnone
      apply absurd ?_ h.2
      rw [hnone]
      rfl
    · intro a ha
      rcases List.mem_singleton.mp ha with rfl
      simp
  · simp only [if_neg h]
    exact ⟨⟨fun hne => absurd rfl hne,
        fun hcon => absurd ⟨hcon.2, hcon.1⟩ h⟩,
      fun _ => trivial, fun a ha => absurd ha (List.not_mem_nil a)⟩


/-- C8 witness: a first observation emits no action. -/
theorem aggregation_status_change_audit_witness :
    (aggregateIPMetricsStep "203.0.113.9" none
        (calculateIPHealthCheck "203.0.113.9" 15 [] 50)
        defaultReputationConfig).2 = [] :=
  (aggregation_status_change_audit "203.0.113.9" none
      (calculateIPHealthCheck "203.0.113.9" 15 [] 50)
      defaultReputationConfig).2.1 rfl

/-- C9: at the failing input — two payload entries of count 1 processed
within one clock second — the handler generates the event id "test-99-0"
twice (the per-entry index restarts and the unix-second prefix repeats),
so of the 2 = Σ count synthesized events only 1 survives ingestion; the
fingerprints are not distinct as the spec requires. -/
theorem simulateFailures_fingerprint_collision :
    ((simulatedFailures "1.2.3.4"
        [{ code := "5.7.1", domain := "gmail.com", count := 1, reason := "x" },
         { code := "5.7.606", domain := "outlook.com", count := 1,
           reason := "y" }]
        6000 (fun _ => 99)).map (·.eventID) =
      ["test-99-0", "test-99-0"]) ∧
    (([{ code := "5.7.1", domain := "gmail.com", count := 1, reason := "x" },
       { code := "5.7.606", domain := "outlook.com", count := 1, reason := "y" }
      ] : List SimFailureSpec).map (·.count)).sum = 2 ∧
    (ingestAll []
        (simulatedFailures "1.2.3.4"
          [{ code := "5.7.1", domain := "gmail.com", count := 1, reason := "x" },
           { code := "5.7.606", domain := "outlook.com", count := 1,
             reason := "y" }]
          6000 (fun _ => 99))).length = 1 := by
  decide


end ServiceApp
